import Mathlib

/-!
Shallow embedding of the quind repository (src/src/fdb.rs, src/src/monitor.rs,
src/src/error.rs).

The repository is a small file-index: `Fdb` is a keyed store built on the
external `kv` crate (sled-backed key/value buckets), and `Monitor` wraps the
external `notify` crate, forwarding raw filesystem events through an
`std::sync::mpsc` channel.

External collaborators are embedded at their documented interface:
the `kv` bucket is a finite map from `String` keys to `String` values
(an association list here); `serde_json` encode/decode of `FileData` is an
injectable codec (the `Codec` structure); the mpsc receiver is a FIFO buffer
together with a disconnected flag. Every `Fdb` method in the source opens the
store at `self.config` and operates on its bucket, so each method is embedded
as a function of the bucket contents, returning the result together with the
bucket contents afterwards. A Rust panic (an `unwrap` of `None`) is a distinct
outcome, `FdbResult.panicked`, never conflated with `Ok` or `Err`.
-/

namespace Quind

/-- Error enum of src/src/fdb.rs: `KV(kv::Error)`, `KVInitError`,
`JSON(serde_json::Error)`. The payloads of the two wrapping variants are
embedded as strings (their display text). -/
inductive Error where
  | KV : String → Error
  | KVInitError : Error
  | JSON : String → Error
deriving DecidableEq, Repr

/-- `FileData` struct of src/src/fdb.rs: the serialized payload, holding only
the path. -/
structure FileData where
  path : String
deriving DecidableEq, Repr

/-- `File` struct of src/src/fdb.rs: a record with its key (`name`) and its
payload (`data`). -/
structure File where
  name : String
  data : FileData
deriving DecidableEq, Repr

/-- The `serde_json` encode/decode capability for `FileData`, injectable per
the spec (the exact wire format is out of scope). `serde_json::to_string` on a
struct of one `String` field is total; `serde_json::from_str` may fail, which
`Fdb::get` surfaces as `Error::JSON`. -/
structure Codec where
  enc : FileData → String
  dec : String → Except String FileData

/-- Contents of the kv bucket backing an `Fdb`: an association list from key
to stored serialized value, first binding for a key wins. -/
abbrev Bucket := List (String × String)

/-- Lookup in the kv bucket: `bucket.get(n)` of the `kv` crate, `None` when
the key is absent. -/
def bucketGet : Bucket → String → Option String
  | [], _ => none
  | (k, v) :: rest, n => if k = n then some v else bucketGet rest n

/-- Upsert in the kv bucket: `bucket.set(k, v)` of the `kv` crate, replacing
the binding when the key is present and inserting it otherwise. -/
def bucketSet : Bucket → String → String → Bucket
  | [], k, v => [(k, v)]
  | (k1, v1) :: rest, k, v =>
    if k1 = k then (k, v) :: rest else (k1, v1) :: bucketSet rest k v

/-- Deletion in the kv bucket: `bucket.remove(k)` of the `kv` crate, a no-op
when the key is absent (kv's remove returns `Ok` regardless). -/
def bucketRemove : Bucket → String → Bucket
  | [], _ => []
  | (k1, v1) :: rest, k =>
    if k1 = k then bucketRemove rest k else (k1, v1) :: bucketRemove rest k

/-- Outcome of an `Fdb` method: a normal `Ok`, an `Err` of the fdb `Error`
enum, or a Rust panic (an `unwrap()` of `None`). -/
inductive FdbResult (α : Type) where
  | ok : α → FdbResult α
  | err : Error → FdbResult α
  | panicked : FdbResult α
deriving DecidableEq, Repr

/-- `Config` of the `kv` crate as used here: `Config::new(p)` records the
backing path. -/
structure Config where
  path : String
deriving DecidableEq, Repr

/-- The `Fdb` struct of src/src/fdb.rs: a handle naming the store and its
backing location. -/
structure Fdb where
  name : String
  path : String
  config : Config
deriving DecidableEq, Repr

/-- `Fdb::new(p, n)`: constructs the handle with `Config::new(p)`; it touches
neither the filesystem nor the store. -/
def Fdb.new (p : String) (n : String) : Fdb :=
  { name := n, path := p, config := { path := p } }

/-- `Fdb::load(p, n)`: textually the same constructor as `Fdb::new` in the
source; it performs no existence check and cannot fail. -/
def Fdb.load (p : String) (n : String) : Fdb :=
  { name := n, path := p, config := { path := p } }

/-- The set of filesystem locations that currently exist, for
`Path::exists`. -/
abbrev FsState := List String

/-- `Fdb::exists(&self)`: `Ok(true)` when `self.path` exists on disk,
`Err(Error::KVInitError)` otherwise. -/
def Fdb.exists (fdb : Fdb) (fs : FsState) : FdbResult Bool :=
  if fdb.path ∈ fs then .ok true else .err .KVInitError

/-- `Fdb::check(&self, n)`: opens the bucket and reports `Ok(false)` when
`bucket.get(n)` is `None`, `Ok(true)` when it is `Some`. -/
def Fdb.check (n : String) (b : Bucket) : FdbResult Bool :=
  match bucketGet b n with
  | none => .ok false
  | some _ => .ok true

/-- `Fdb::add(&self, f)`: `bucket.set(f.name, to_string(f.data))`; returns
`Ok(())` and the updated bucket. -/
def Fdb.add (c : Codec) (f : File) (b : Bucket) : FdbResult Unit × Bucket :=
  (.ok (), bucketSet b f.name (c.enc f.data))

/-- `Fdb::get(&self, n)`: reads `bucket.get(n)` and then calls
`result.unwrap()`, which panics when the key is absent; on a present key it
decodes the stored string (`Err(Error::JSON ..)` on decode failure) and
rebuilds the record with `name` taken from the argument `n`. -/
def Fdb.get (c : Codec) (n : String) (b : Bucket) : FdbResult File :=
  match bucketGet b n with
  | none => .panicked
  | some s =>
    match c.dec s with
    | .error e => .err (.JSON e)
    | .ok d => .ok { name := n, data := d }

/-- `Fdb::update(&self, n, d)`: builds `File { name := n, data := d }` and
performs the same `bucket.set` as `Fdb::add`. -/
def Fdb.update (c : Codec) (n : String) (d : FileData) (b : Bucket) :
    FdbResult Unit × Bucket :=
  (.ok (), bucketSet b n (c.enc d))

/-- `Fdb::remove(&self, n)`: `bucket.remove(n)`; returns `Ok(())` and the
updated bucket. -/
def Fdb.remove (n : String) (b : Bucket) : FdbResult Unit × Bucket :=
  (.ok (), bucketRemove b n)

/-- A concrete codec satisfying the serde round-trip contract, used to
instantiate witnesses: it stores the single `path` field verbatim. -/
def idCodec : Codec :=
  { enc := fun d => d.path, dec := fun s => .ok { path := s } }

/-! Embedding of src/src/monitor.rs. -/

/-- Kinds of `notify::Event`, as adapted by the Watch Source. -/
inductive EventKind where
  | create
  | modify
  | removeKind
  | renameKind
  | other
deriving DecidableEq, Repr

/-- A raw `notify::Event`: a kind together with its path list. -/
structure NotifyEvent where
  kind : EventKind
  paths : List String
deriving DecidableEq, Repr

/-- An item carried by the monitor channel: `Result<Event, notify::Error>`,
the notify error embedded as its display string. -/
abbrev RawItem := Except String NotifyEvent

instance : DecidableEq RawItem := fun a b =>
  match a, b with
  | .ok x, .ok y => decidable_of_iff (x = y) (by simp)
  | .ok _, .error _ => isFalse (by simp)
  | .error _, .ok _ => isFalse (by simp)
  | .error x, .error y => decidable_of_iff (x = y) (by simp)

/-- Error enum of src/src/monitor.rs: `Notify(notify::Error)` and
`Sync(mpsc::RecvError)`. `RecvError` is a unit struct, so `Sync` carries no
payload here. -/
inductive MonError where
  | Notify : String → MonError
  | Sync : MonError
deriving DecidableEq, Repr

/-- State of the `mpsc::Receiver` held by `Monitor`: the FIFO of items not
yet received, and whether every `Sender` has been dropped. -/
structure Channel where
  buffer : List RawItem
  disconnected : Bool
deriving DecidableEq, Repr

/-- Outcome of one `Monitor::get` call: the call blocks (channel open and
empty), returns the next item, or returns `Err(Error::Sync(RecvError))`. -/
inductive GetOut where
  | blocked
  | ok : RawItem → GetOut
  | err : MonError → GetOut
deriving DecidableEq, Repr

namespace Monitor

/-- `Monitor::get(&mut self)`: `self.rx.recv()`, mapping a received item to
`Ok` and a `RecvError` to `Err(Error::Sync(e))`. Per mpsc semantics, `recv`
yields the next buffered item if any; on an empty buffer it fails with
`RecvError` when all senders are gone and blocks otherwise. -/
def get (c : Channel) : GetOut × Channel :=
  match c.buffer with
  | e :: rest => (.ok e, { buffer := rest, disconnected := c.disconnected })
  | [] =>
    if c.disconnected then (.err .Sync, c) else (.blocked, c)

/-- The channel state after one `Monitor::get` call. -/
def getStep (c : Channel) : Channel := (get c).2

/-- The source is exhausted: no buffered event remains and the producing side
is gone, so `recv` can only fail. -/
def exhausted (c : Channel) : Prop := c.buffer = [] ∧ c.disconnected = true

instance (c : Channel) : Decidable (exhausted c) := by
  unfold exhausted; infer_instance

end Monitor

/-! Basic facts about the kv bucket operations. -/

theorem bucketGet_bucketSet_same (b : Bucket) (k v : String) :
    bucketGet (bucketSet b k v) k = some v := by
  induction b with
  | nil => simp [bucketSet, bucketGet]
  | cons hd tl ih =>
    obtain ⟨k1, v1⟩ := hd
    by_cases h : k1 = k
    · simp [bucketSet, bucketGet, h]
    · simp [bucketSet, bucketGet, h, ih]

theorem bucketSet_bucketSet_same (b : Bucket) (k v : String) :
    bucketSet (bucketSet b k v) k v = bucketSet b k v := by
  induction b with
  | nil => simp [bucketSet]
  | cons hd tl ih =>
    obtain ⟨k1, v1⟩ := hd
    by_cases h : k1 = k
    · simp [bucketSet, h]
    · simp [bucketSet, h, ih]

theorem bucketGet_bucketRemove_same (b : Bucket) (k : String) :
    bucketGet (bucketRemove b k) k = none := by
  induction b with
  | nil => simp [bucketRemove, bucketGet]
  | cons hd tl ih =>
    obtain ⟨k1, v1⟩ := hd
    by_cases h : k1 = k
    · simp [bucketRemove, h, ih]
    · simp [bucketRemove, bucketGet, h, ih]

theorem bucketRemove_bucketRemove_same (b : Bucket) (k : String) :
    bucketRemove (bucketRemove b k) k = bucketRemove b k := by
  induction b with
  | nil => simp [bucketRemove]
  | cons hd tl ih =>
    obtain ⟨k1, v1⟩ := hd
    by_cases h : k1 = k
    · simp [bucketRemove, h, ih]
    · simp [bucketRemove, h, ih]

theorem Monitor.get_of_exhausted (c : Channel) (h : Monitor.exhausted c) :
    Monitor.get c = (GetOut.err MonError.Sync, c) := by
  obtain ⟨hbuf, hdis⟩ := h
  simp [Monitor.get, hbuf, hdis]

theorem Monitor.getStep_iterate_of_exhausted (c : Channel)
    (h : Monitor.exhausted c) (k : Nat) : Monitor.getStep^[k] c = c := by
  induction k with
  | zero => rfl
  | succ m ih =>
    rw [Function.iterate_succ_apply, Monitor.getStep,
      Monitor.get_of_exhausted c h, ih]

/-! The claims. -/

/-- C1: if `add(f)` succeeds on a store, a subsequent `get(f.name)` succeeds
and returns a record equal to `f` (same name and same path data), provided the
injected codec satisfies the serde round-trip contract on `f.data`. -/
theorem add_get_roundtrip (c : Codec) (f : File) (b : Bucket)
    (hc : c.dec (c.enc f.data) = .ok f.data) :
    (Fdb.add c f b).1 = FdbResult.ok () ∧
    Fdb.get c f.name (Fdb.add c f b).2 = FdbResult.ok f := by
  refine ⟨rfl, ?_⟩
  simp [Fdb.add, Fdb.get, bucketGet_bucketSet_same, hc]

/-- C1 witness: the round trip at a concrete record and codec. -/
theorem add_get_roundtrip_witness :
    idCodec.dec (idCodec.enc { path := "/data/a" }) =
      Except.ok { path := "/data/a" } ∧
    Fdb.get idCodec "a.txt"
        (Fdb.add idCodec { name := "a.txt", data := { path := "/data/a" } } []).2 =
      FdbResult.ok { name := "a.txt", data := { path := "/data/a" } } :=
  ⟨rfl,
    (add_get_roundtrip idCodec { name := "a.txt", data := { path := "/data/a" } }
      [] rfl).2⟩

/-- C2 counterexample: on the empty store, `get "a.txt"` evaluates to the
panic outcome (the source calls `result.unwrap()` on `None`), which is a
constructor distinct from every `FdbResult.err e`; in particular no `NotFound`
error is returned — the `Error` enum of src/src/fdb.rs has no such variant. -/
theorem get_absent_panics_counterexample :
    Fdb.get idCodec "a.txt" [] = FdbResult.panicked := rfl

/-- C2 amended: for every key with no record in the store, `get` neither
succeeds nor returns an error value: it panics (the `unwrap()` of `None`). -/
theorem get_absent_panics (c : Codec) (n : String) (b : Bucket)
    (h : bucketGet b n = none) : Fdb.get c n b = FdbResult.panicked := by
  simp [Fdb.get, h]

/-- C2 witness: the amended claim at a concrete absent key. -/
theorem get_absent_panics_witness :
    bucketGet [] "x" = none ∧ Fdb.get idCodec "x" [] = FdbResult.panicked :=
  ⟨rfl, get_absent_panics idCodec "x" [] rfl⟩

/-- C3: `update(n, d)` is the same operation as `add` applied to the record
with name `n` and data `d`: identical final store and identical result. -/
theorem update_eq_add (c : Codec) (n : String) (d : FileData) (b : Bucket) :
    Fdb.update c n d b = Fdb.add c { name := n, data := d } b := rfl

/-- C4: `add` is an idempotent upsert: on every store (in particular one
already holding the key) it returns `Ok`, and applying it twice yields the
same store and result as applying it once. -/
theorem add_upsert_idem (c : Codec) (f : File) (b : Bucket) :
    (Fdb.add c f b).1 = FdbResult.ok () ∧
    Fdb.add c f (Fdb.add c f b).2 = Fdb.add c f b := by
  refine ⟨rfl, ?_⟩
  simp [Fdb.add, bucketSet_bucketSet_same]

/-- C5: `remove(n)` returns `Ok` on every store, including one with no record
for `n`; afterwards no record for `n` exists; and removing twice equals
removing once. -/
theorem remove_absent_ok_idem (n : String) (b : Bucket) :
    (Fdb.remove n b).1 = FdbResult.ok () ∧
    bucketGet (Fdb.remove n b).2 n = none ∧
    Fdb.remove n (Fdb.remove n b).2 = Fdb.remove n b := by
  refine ⟨rfl, ?_, ?_⟩
  · simp [Fdb.remove, bucketGet_bucketRemove_same]
  · simp [Fdb.remove, bucketRemove_bucketRemove_same]

/-- C6: `check(n)` returns `Ok true` exactly when a record for `n` exists and
`Ok false` exactly when none does; it never returns an error, and on the
empty (untouched) store it returns `Ok false`. -/
theorem check_iff_exists (n : String) (b : Bucket) :
    (Fdb.check n b = FdbResult.ok true ↔ bucketGet b n ≠ none) ∧
    (Fdb.check n b = FdbResult.ok false ↔ bucketGet b n = none) ∧
    (∀ e, Fdb.check n b ≠ FdbResult.err e) ∧
    Fdb.check n ([] : Bucket) = FdbResult.ok false := by
  refine ⟨?_, ?_, ?_, rfl⟩ <;> cases h : bucketGet b n <;> simp [Fdb.check, h]

/-- C6 witness: `check` at a concrete present key and a concrete absent
key. -/
theorem check_iff_exists_witness :
    Fdb.check "k" [("k", "v")] = FdbResult.ok true ∧
    Fdb.check "m" [("k", "v")] = FdbResult.ok false :=
  ⟨(check_iff_exists "k" [("k", "v")]).1.mpr (by simp [bucketGet]),
    (check_iff_exists "m" [("k", "v")]).2.1.mpr (by simp [bucketGet])⟩

/-- C7 counterexample: `Fdb::load` is the very same constructor call as
`Fdb::new` — at a location that does not exist it still returns a normally
constructed handle, equal to the one `new` returns; its return type has no
error outcome, so it cannot fail fast at load time. -/
theorem load_never_fails_counterexample :
    Fdb.load "nowhere" "db" = Fdb.new "nowhere" "db" := rfl

/-- C7 amended: `Fdb::load` is identical to `Fdb::new`; both always succeed
without touching the filesystem, and the explicit fail-fast check is the
separate `exists()` method, which returns `Err(KVInitError)` when the backing
location is absent. -/
theorem load_eq_new_exists_fails (p n : String) (fs : FsState)
    (h : p ∉ fs) :
    Fdb.load p n = Fdb.new p n ∧
    Fdb.exists (Fdb.load p n) fs = FdbResult.err Error.KVInitError := by
  refine ⟨rfl, ?_⟩
  simp [Fdb.load, Fdb.exists, h]

/-- C7 witness: the amended claim at a concrete absent location. -/
theorem load_eq_new_exists_fails_witness :
    Fdb.load "x" "db" = Fdb.new "x" "db" ∧
    Fdb.exists (Fdb.load "x" "db") [] = FdbResult.err Error.KVInitError :=
  load_eq_new_exists_fails "x" "db" [] (by simp)

/-- C8: once the channel is exhausted (no buffered event and the producing
side gone), every subsequent `Monitor::get` call — the k-th for every k —
fails with `Err(Error::Sync(RecvError))` and never again returns an event. -/
theorem get_after_closed (c : Channel) (h : Monitor.exhausted c) (k : Nat) :
    (Monitor.get (Monitor.getStep^[k] c)).1 = GetOut.err MonError.Sync ∧
    ∀ e, (Monitor.get (Monitor.getStep^[k] c)).1 ≠ GetOut.ok e := by
  rw [Monitor.getStep_iterate_of_exhausted c h k,
    Monitor.get_of_exhausted c h]
  simp

/-- C8 witness: the third call on a concretely exhausted channel still fails
with the `Sync` error. -/
theorem get_after_closed_witness :
    Monitor.exhausted { buffer := [], disconnected := true } ∧
    (Monitor.get
        (Monitor.getStep^[2] { buffer := [], disconnected := true })).1 =
      GetOut.err MonError.Sync :=
  ⟨⟨rfl, rfl⟩, (get_after_closed { buffer := [], disconnected := true }
    ⟨rfl, rfl⟩ 2).1⟩

/-- C9: `exists()` never returns `Ok false`: it returns `Ok true` when the
backing location is present and `Err(KVInitError)` when it is absent. -/
theorem exists_never_ok_false (fdb : Fdb) (fs : FsState) :
    Fdb.exists fdb fs ≠ FdbResult.ok false ∧
    (fdb.path ∈ fs → Fdb.exists fdb fs = FdbResult.ok true) ∧
    (fdb.path ∉ fs → Fdb.exists fdb fs = FdbResult.err Error.KVInitError) := by
  by_cases h : fdb.path ∈ fs <;> simp [Fdb.exists, h]

/-- C9 witness: `exists()` at a concretely present and a concretely absent
location. -/
theorem exists_never_ok_false_witness :
    Fdb.exists (Fdb.new "x" "db") ["x"] = FdbResult.ok true ∧
    Fdb.exists (Fdb.new "y" "db") [] = FdbResult.err Error.KVInitError :=
  ⟨(exists_never_ok_false (Fdb.new "x" "db") ["x"]).2.1 (by simp [Fdb.new]),
    (exists_never_ok_false (Fdb.new "y" "db") []).2.2 (by simp [Fdb.new])⟩

/-- C10: whenever `get(n)` succeeds, the name of the returned record is the
queried key `n` (the source rebuilds it from the argument, never from the
stored bytes). -/
theorem get_name_eq_key (c : Codec) (n : String) (b : Bucket) (f : File)
    (h : Fdb.get c n b = FdbResult.ok f) : f.name = n := by
  cases hb : bucketGet b n with
  | none => simp [Fdb.get, hb] at h
  | some s =>
    cases hd : c.dec s with
    | error e => simp [Fdb.get, hb, hd] at h
    | ok d =>
      simp [Fdb.get, hb, hd] at h
      subst h
      rfl

/-- C10 witness: a successful `get` at a concrete store whose stored value is
unrelated to the key; the returned name is the queried key. -/
theorem get_name_eq_key_witness :
    Fdb.get idCodec "k" [("k", "/somewhere")] =
      FdbResult.ok { name := "k", data := { path := "/somewhere" } } ∧
    ({ name := "k", data := { path := "/somewhere" } } : File).name = "k" :=
  ⟨rfl, get_name_eq_key idCodec "k" [("k", "/somewhere")]
    { name := "k", data := { path := "/somewhere" } } rfl⟩

end Quind
